import Mathlib

/-!
Shallow embedding of `src/bot.py` (kei2511/telegram-movie-bot), a Telegram
movie bot backed by the TMDb HTTP API and a PostgreSQL favorites table.
Each Lean definition below mirrors one Python function of the source file;
side effects (sending messages, HTTP requests, SQL statements) are made
explicit as returned data.  The source file is stored in a doubly encoded
form, so the literal message texts below reproduce the mojibake characters
exactly as they appear in the Python string literals.
-/

namespace MovieBot

/-- Mirror of `telegram.InlineKeyboardButton(text, callback_data=...)`:
the only constructor arguments the bot ever uses. -/
structure InlineKeyboardButton where
  text : String
  callback_data : String
deriving DecidableEq, Repr

/-- Mirror of `telegram.InlineKeyboardMarkup`: a list of button rows. -/
abbrev Keyboard := List (List InlineKeyboardButton)

/-- One outbound `reply_text(text, reply_markup=...)` call: the message text
together with the inline keyboard attached to it. -/
structure Reply where
  text : String
  keyboard : Keyboard
deriving DecidableEq, Repr

/-- Movie summary as consumed from a TMDb results array: the three keys the
bot reads (`id`, `title`, `release_date`).  `release_date := none` models the
key being absent; `some ""` models an empty string (both falsy in Python). -/
structure Movie where
  id : Int
  title : String
  release_date : Option String
deriving DecidableEq, Repr

/-- Entry of a person's `known_for` array: a movie summary plus the
`media_type` tag the actor handler filters on. -/
structure KnownForEntry extends Movie where
  media_type : String
deriving DecidableEq, Repr

/-- Person record from a `search/person` results array: the bot reads
`name` and `known_for`.  `known_for := []` models both an absent/None
`known_for` key and an empty array (both falsy in Python). -/
structure Person where
  name : String
  known_for : List KnownForEntry
deriving DecidableEq, Repr

/- Message literals, byte for byte as they stand in `bot.py`. -/

/-- Line 253: movie-search "not found" text (also line 220). -/
def msgMovieNotFound (query_text : String) : String :=
  "âŒ Tidak ada film yang ditemukan untuk '" ++ query_text ++ "'."

/-- Line 263: actor-search "not found" text. -/
def msgActorNotFound (query_text : String) : String :=
  "âŒ Tidak ada aktor/aktris yang ditemukan untuk '" ++ query_text ++ "'."

/-- Line 270: caption above an actor's known-for movie keyboard. -/
def msgActorMovies (name : String) : String :=
  "ğŸ¬ Film populer yang dibintangi **" ++ name ++ "**:"

/-- Line 286: fallback sent when a text message arrives with no pending state. -/
def msgDidntUnderstand : String :=
  "Maaf, saya tidak mengerti. Silakan gunakan tombol di bawah ini:"

/-- Line 256: caption above movie-search results. -/
def msgSearchResults : String := "ğŸ¬ Hasil pencarian:"

/-- Line 357: invalid-genre error text. -/
def msgInvalidGenre (genre_name : String) : String :=
  "âŒ Genre '" ++ genre_name ++ "' tidak valid."

/-- Python `str.capitalize()`: first character uppercased, the rest
lowercased. -/
def pyCapitalize (s : String) : String :=
  match s.toList with
  | [] => ""
  | c :: cs => String.mk (c.toUpper :: cs.map Char.toLower)

/-- Line 362: genre search "no results" text. -/
def msgNoGenreMovies (genre_name : String) : String :=
  "âŒ Tidak ada film yang ditemukan untuk genre "
    ++ pyCapitalize genre_name ++ "."

/-- Line 364: caption above a genre's discover results. -/
def msgGenreMovies (genre_name : String) : String :=
  "ğŸ¬ Film Populer Genre **" ++ pyCapitalize genre_name ++ "**:"

/-- Line 214: usage error of `/favorite` with an empty title. -/
def msgFavoriteUsage : String :=
  "âš ï¸ Masukkan judul film setelah perintah.\nContoh: `/favorite Inception`"

/-- Line 224: caption above the save-to-favorites keyboard. -/
def msgPickFavorite : String :=
  "ğŸ¬ Pilih film yang ingin Anda simpan ke favorit:"

/-- Line 55: message returned by `add_favorite_to_db` when no connection. -/
def msgDbConnError : String := "Database connection error."

/-- Line 69: message returned by `add_favorite_to_db` on an exception. -/
def msgDbAddFail : String := "Gagal menambahkan favorit."

/-- Line 66, first branch: successful insert message. -/
def msgFavAdded (movie_title : String) : String :=
  "'" ++ movie_title ++ "' berhasil ditambahkan ke favorit!"

/-- Line 66, second branch: duplicate (already present) message. -/
def msgFavExists (movie_title : String) : String :=
  "'" ++ movie_title ++ "' sudah ada di favorit Anda."

/-- Line 125: the "show main menu" button appended to every movie keyboard. -/
def showMenuButton : InlineKeyboardButton :=
  { text := "ğŸ›ï¸ Tampilkan Menu Utama", callback_data := "menu_menu" }

/-- Line 152: the "back to menu" button of `create_error_keyboard`. -/
def backToMenuButton : InlineKeyboardButton :=
  { text := "ğŸ›ï¸ Kembali ke Menu", callback_data := "menu_menu" }

/-- Mirror of `create_error_keyboard` (lines 150-152). -/
def create_error_keyboard : Keyboard := [[backToMenuButton]]

/-- Lines 142-147: the fixed 8-button grid of `create_main_menu`. -/
def main_menu_keyboard : Keyboard :=
  [ [ { text := "ğŸ” Cari Film", callback_data := "menu_search" },
      { text := "ğŸ­ Cari Aktor", callback_data := "menu_actor" } ],
    [ { text := "ğŸ¬ Film Trending", callback_data := "menu_trending" },
      { text := "ğŸ·ï¸ Genre Film", callback_data := "menu_genres" } ],
    [ { text := "â­ Tambah Favorit", callback_data := "menu_favorite" },
      { text := "ğŸ“œ List Favorit", callback_data := "menu_favorites" } ],
    [ { text := "ğŸ« Cari Bioskop", callback_data := "menu_cinema" },
      { text := "â“ Bantuan", callback_data := "menu_help" } ] ]

/-- Line 122: `movie.get("release_date", "Unknown")[:4] if movie.get("release_date") else "N/A"`.
The `"Unknown"` default can never be taken: when the condition is truthy the
key is present and non-empty, so the slice applies to the stored date. -/
def releaseYear (m : Movie) : String :=
  match m.release_date with
  | none => "N/A"
  | some d => if d = "" then "N/A" else d.take 4

/-- Lines 120-124: one keyboard row `[InlineKeyboardButton(display_name,
callback_data=f"{callback_prefix}_{movie_id}")]` for one movie. -/
def movieButton (cbPref : String) (m : Movie) : InlineKeyboardButton :=
  { text := m.title ++ " (" ++ releaseYear m ++ ")",
    callback_data := cbPref ++ "_" ++ toString m.id }

/-- Mirror of `create_movie_keyboard(movies, callback_prefix)` (lines
116-126): one row per movie of the first five, then the show-menu row. -/
def create_movie_keyboard (movies : List Movie) (cbPref : String) : Keyboard :=
  (movies.take 5).map (fun m => [movieButton cbPref m]) ++ [[showMenuButton]]

/- Favorites store (lines 25-87).  The PostgreSQL table is modelled as the
list of its rows in insertion order; `DbConn` distinguishes a live
connection from the `None` that `get_db_connection` returns on an
`OperationalError`. -/

/-- One row of the `favorites` table (`id SERIAL` omitted: the code never
reads it; uniqueness is on `(user_id, movie_id)`). -/
structure FavRow where
  user_id : Int
  movie_id : Int
  movie_title : String
deriving DecidableEq, Repr

/-- Contents of the `favorites` table. -/
abbrev FavDB := List FavRow

/-- Result of `get_db_connection()`: a live connection onto the current
table contents, or `fail` for the `None` returned on a connection error. -/
inductive DbConn where
  | ok (db : FavDB)
  | fail
deriving DecidableEq, Repr

/-- Truth of the `UNIQUE(user_id, movie_id)` conflict test for one row. -/
def FavRow.matches (r : FavRow) (user_id movie_id : Int) : Bool :=
  r.user_id == user_id && r.movie_id == movie_id

/-- Mirror of `add_favorite_to_db(user_id, movie_id, movie_title)` (lines
52-71).  The `INSERT ... ON CONFLICT (user_id, movie_id) DO NOTHING`
inserts the row exactly when no row with the same `(user_id, movie_id)`
exists, and `cur.rowcount > 0` reports whether it did.  Returns the table
after the call together with the `(was_inserted, message)` pair the Python
function returns. -/
def add_favorite_to_db (conn : DbConn) (user_id movie_id : Int)
    (movie_title : String) : DbConn × Bool × String :=
  match conn with
  | .fail => (.fail, false, msgDbConnError)
  | .ok db =>
    if db.any (fun r => r.matches user_id movie_id) then
      (.ok db, false, msgFavExists movie_title)
    else
      (.ok (db ++ [{ user_id := user_id, movie_id := movie_id,
                     movie_title := movie_title }]),
       true, msgFavAdded movie_title)

/-- Mirror of `get_favorites_from_db(user_id)` (lines 73-87):
`SELECT movie_title FROM favorites WHERE user_id = %s ORDER BY movie_title`,
with `[]` on a connection failure.  `ORDER BY` is modelled as sorting the
selected titles lexicographically ascending. -/
def get_favorites_from_db (conn : DbConn) (user_id : Int) : List String :=
  match conn with
  | .fail => []
  | .ok db =>
    List.insertionSort (fun a b => a ≤ b)
      ((db.filter (fun r => r.user_id == user_id)).map (fun r => r.movie_title))

/- Catalog client (lines 100-114). -/

/-- JSON value, as far as the bot inspects one. -/
inductive Json where
  | null
  | bool (b : Bool)
  | num (n : Int)
  | str (s : String)
  | arr (elems : List Json)
  | obj (fields : List (String × Json))

/-- The `{}` that `tmdb_request` returns on every failure path. -/
def emptyJson : Json := Json.obj []

/-- Outcome of the `requests.get` call: a network-level failure (which
raises `requests.RequestException`), or an HTTP response with a status code
and a JSON body. -/
inductive HttpOutcome where
  | transportError
  | response (status : Nat) (body : Json)

/-- Mirror of `tmdb_request(endpoint, params)` (lines 100-114).  The API key
is `none` when unset and `some ""` when set to the empty string — both falsy
under Python `if not TMDB_API_KEY`.  `response.raise_for_status()` raises
`requests.HTTPError` (a `RequestException`) exactly for status codes at or
above 400, and the `except requests.RequestException` arm turns every raise
into `return {}`. -/
def tmdb_request (apiKey : Option String) (outcome : HttpOutcome) : Json :=
  match apiKey with
  | none => emptyJson
  | some key =>
    if key = "" then emptyJson
    else
      match outcome with
      | .transportError => emptyJson
      | .response status body =>
        if 400 ≤ status then emptyJson else body

/- String helpers mirroring the Python idioms used by the handlers. -/

/-- Drop characters up to and through the first `'_'`.  Helper for
`query.data.split("_", 1)[1]`. -/
def dropThroughUnderscore : List Char → List Char
  | [] => []
  | c :: cs => if c = '_' then cs else dropThroughUnderscore cs

/-- Python `s.split("_", 1)[1]`: everything after the first underscore,
later underscores preserved.  The handlers only receive data matched by the
patterns `^menu_` / `^genre_` / `^detail_` / `^save_`, so an underscore is
always present; on underscore-free input (where Python would raise an
`IndexError`, unreachable here) this returns the empty string. -/
def afterFirstUnderscore (s : String) : String :=
  String.mk (dropThroughUnderscore s.toList)

/-- Python `text.split()`: split on whitespace, dropping empty fields. -/
def pyWords (s : String) : List String :=
  (s.split Char.isWhitespace).filter (fun w => w ≠ "")

/- Conversation controller (lines 210-364).  Each handler returns the
endpoints it queried and the replies it sent; the TMDb responses it would
receive are passed in as explicit arguments (the value of
`tmdb_request(...).get("results", [])`, which is `[]` both for an empty
results array and for the `{}` that `tmdb_request` yields on failure). -/

/-- TMDb responses visible to one text-message turn, already projected
through `data.get("results", [])`. -/
structure TmdbOracle where
  searchMovieResults : String → List Movie
  searchPersonResults : String → List Person

/-- What one handler invocation did: endpoints requested and replies sent. -/
structure HandlerOutput where
  requests : List String
  replies : List Reply
deriving DecidableEq, Repr

/-- Mirror of the inner `call_search_movie(query_text)` (lines 248-256). -/
def call_search_movie (query_text : String) (oracle : TmdbOracle) :
    HandlerOutput :=
  let movies := oracle.searchMovieResults query_text
  if movies = [] then
    { requests := ["search/movie"],
      replies := [⟨msgMovieNotFound query_text, create_error_keyboard⟩] }
  else
    { requests := ["search/movie"],
      replies := [⟨msgSearchResults, create_movie_keyboard movies "detail"⟩] }

/-- Mirror of the inner `call_search_actor(query_text)` (lines 258-270).
The guard `not actors or not actors[0].get("known_for")` fails over to the
"not found" reply; otherwise the top match's `known_for` is filtered to
`media_type == 'movie'` entries and rendered with `create_movie_keyboard`
(default prefix `"detail"`). -/
def call_search_actor (query_text : String) (actors : List Person) :
    HandlerOutput :=
  match actors with
  | [] =>
    { requests := ["search/person"],
      replies := [⟨msgActorNotFound query_text, create_error_keyboard⟩] }
  | actor :: _ =>
    if actor.known_for = [] then
      { requests := ["search/person"],
        replies := [⟨msgActorNotFound query_text, create_error_keyboard⟩] }
    else
      let known_for :=
        (actor.known_for.filter (fun m => m.media_type == "movie")).map
          KnownForEntry.toMovie
      { requests := ["search/person"],
        replies := [⟨msgActorMovies actor.name,
                     create_movie_keyboard known_for "detail"⟩] }

/-- Mirror of `add_favorite_by_title` (lines 210-224) as reached from the
state machine: `context.args` is `query_text.split()` and the handler joins
it back with single spaces before searching. -/
def add_favorite_by_title (args : List String) (oracle : TmdbOracle) :
    HandlerOutput :=
  let query := String.intercalate " " args
  if query = "" then
    { requests := [], replies := [⟨msgFavoriteUsage, create_error_keyboard⟩] }
  else
    let movies := oracle.searchMovieResults query
    if movies = [] then
      { requests := ["search/movie"],
        replies := [⟨msgMovieNotFound query, create_error_keyboard⟩] }
    else
      { requests := ["search/movie"],
        replies := [⟨msgPickFavorite, create_movie_keyboard movies "save"⟩] }

/-- Result of one `handle_text_message` turn: the user's `state` slot after
the `pop`, plus everything the handler did. -/
structure TextTurn where
  newState : Option String
  output : HandlerOutput
deriving DecidableEq, Repr

/-- Mirror of `handle_text_message` (lines 242-286).  `state` is the value
`context.user_data.pop('state', None)` yields, i.e. the pending intent
stored for the sender before this turn; after the `pop` the slot always
holds `none`.  Any value other than `'search'`/`'actor'`/`'favorite'`
(including `none`) falls through to the main-menu fallback, which contacts
no endpoint. -/
def handle_text_message (state : Option String) (text : String)
    (oracle : TmdbOracle) : TextTurn :=
  if state = some "search" then
    { newState := none, output := call_search_movie text oracle }
  else if state = some "actor" then
    { newState := none,
      output := call_search_actor text (oracle.searchPersonResults text) }
  else if state = some "favorite" then
    { newState := none, output := add_favorite_by_title (pyWords text) oracle }
  else
    { newState := none,
      output := { requests := [],
                  replies := [⟨msgDidntUnderstand, main_menu_keyboard⟩] } }

/- Genre handling (lines 321-327 and 349-364).  `GENRES` is a Python dict
from lowercase genre name to TMDb id, modelled as an association list in
insertion order with pairwise-distinct keys (dict semantics). -/

/-- Mirror of the `genres` branch of `handle_menu_button` (lines 321-327):
one button per name among `list(GENRES.keys())[:10]`, labelled with
`g.capitalize()` and carrying `genre_<g>`, then a back-to-menu row. -/
def genre_menu_keyboard (genres : List (String × Int)) : Keyboard :=
  ((genres.map Prod.fst).take 10).map
    (fun g => [{ text := pyCapitalize g, callback_data := "genre_" ++ g }])
  ++ [[backToMenuButton]]

/-- Mirror of `handle_genre_button` (lines 349-364).  `discover` is the
projection `tmdb_request("discover/movie", ...).get("results", [])` as a
function of the genre id sent.  Python's `if not genre_id` is truthy both
when `GENRES.get` returns `None` (name absent) and when the stored id is
the integer `0`. -/
def handle_genre_button (genres : List (String × Int))
    (callback_data : String) (discover : Int → List Movie) : HandlerOutput :=
  let genre_name := afterFirstUnderscore callback_data
  match genres.lookup genre_name with
  | none =>
    { requests := [],
      replies := [⟨msgInvalidGenre genre_name, create_error_keyboard⟩] }
  | some genre_id =>
    if genre_id = 0 then
      { requests := [],
        replies := [⟨msgInvalidGenre genre_name, create_error_keyboard⟩] }
    else
      let movies := discover genre_id
      if movies = [] then
        { requests := ["discover/movie"],
          replies := [⟨msgNoGenreMovies genre_name, create_error_keyboard⟩] }
      else
        { requests := ["discover/movie"],
          replies := [⟨msgGenreMovies genre_name,
                       create_movie_keyboard movies "detail"⟩] }

/- Location handler (lines 366-379). -/

/-- Numeric value of `update.message.location.latitude`/`longitude` as the
Python runtime holds it after JSON parsing: an `int`, or a `float` whose
value is the finite decimal `intPart.fracDigits` (Telegram coordinates are
short finite decimals; `repr`/`str` of such a float is its shortest decimal
form, with `.0` appended when the value is integral, e.g. `str(0.0) = "0.0"`). -/
inductive PyNum where
  | int (n : Int)
  | float (intPart : Int) (fracDigits : String)
deriving DecidableEq, Repr

/-- Python `str` of such a number, as an f-string interpolates it. -/
def pyStr : PyNum → String
  | .int n => toString n
  | .float intPart fracDigits =>
    toString intPart ++ "." ++ (if fracDigits = "" then "0" else fracDigits)

/-- Line 371: `maps_url = f"https://www.google.com/maps/search/bioskop/@{lat},{lon},15z"`. -/
def maps_url (lat lon : PyNum) : String :=
  "https://www.google.com/maps/search/bioskop/@"
    ++ pyStr lat ++ "," ++ pyStr lon ++ ",15z"

/-- Lines 372-375: the first reply of `handle_location`, which carries the
map URL. -/
def location_reply_text (lat lon : PyNum) : String :=
  "âœ… Lokasi diterima! Klik link di bawah untuk melihat bioskop terdekat di Google Maps:\n\n"
    ++ maps_url lat lon

/-- Substring check used to state the URL claims: does `pat` occur
contiguously in `s`? -/
def startsWithChars : List Char → List Char → Bool
  | [], _ => true
  | _ :: _, [] => false
  | p :: ps, c :: cs => p == c && startsWithChars ps cs

/-- Scan for a contiguous occurrence of `pat`. -/
def hasSubChars (pat : List Char) : List Char → Bool
  | [] => startsWithChars pat []
  | c :: cs => startsWithChars pat (c :: cs) || hasSubChars pat cs

/-- String containment: `containsSub s pat` holds when `pat` occurs as a
contiguous substring of `s`. -/
def containsSub (s pat : String) : Bool := hasSubChars pat.toList s.toList

/-! Helper lemmas shared by the claim theorems. -/

theorem length_mk (l : List Char) : (String.mk l).length = l.length := rfl

theorem length_toList (s : String) : s.toList.length = s.length := rfl

theorem toList_append (s t : String) : (s ++ t).toList = s.toList ++ t.toList := by
  cases s; cases t; rfl

theorem pyCapitalize_length (s : String) : (pyCapitalize s).length = s.length := by
  unfold pyCapitalize
  cases hs : s.toList with
  | nil =>
    have h0 : s.length = 0 := by rw [← length_toList, hs]; rfl
    simp [h0]
  | cons c cs =>
    have h1 : s.length = cs.length + 1 := by rw [← length_toList, hs]; simp
    simp [length_mk, List.length_map, h1]

theorem string_length_append (s t : String) : (s ++ t).length = s.length + t.length := by
  rw [← length_toList, toList_append, List.length_append, length_toList, length_toList]

/-- Message distinctness: the invalid-genre text never coincides with the
genre no-results text (their fixed parts have different lengths and
`pyCapitalize` preserves length). -/
theorem invalid_ne_noresults (g : String) : msgInvalidGenre g ≠ msgNoGenreMovies g := by
  intro h
  have hl := congrArg String.length h
  unfold msgInvalidGenre msgNoGenreMovies at hl
  rw [string_length_append, string_length_append, string_length_append,
      string_length_append, pyCapitalize_length] at hl
  have h1 : ("âŒ Genre '" : String).length = 10 := rfl
  have h2 : ("' tidak valid." : String).length = 14 := rfl
  have h3 : ("âŒ Tidak ada film yang ditemukan untuk genre " : String).length = 45 := rfl
  have h4 : ("." : String).length = 1 := rfl
  rw [h1, h2, h3, h4] at hl
  omega

/-- Association-list lookup with pairwise-distinct keys (a Python dict)
finds exactly the stored value of any member pair. -/
theorem lookup_of_mem_of_nodup (l : List (String × Int)) (p : String × Int)
    (hm : p ∈ l) (hnd : (l.map Prod.fst).Nodup) : l.lookup p.1 = some p.2 := by
  induction l with
  | nil => cases hm
  | cons q tl ih =>
    rw [List.map_cons, List.nodup_cons] at hnd
    rcases List.mem_cons.mp hm with h | h
    · subst h
      simp [List.lookup]
    · have hne : p.1 ≠ q.1 := by
        intro he
        exact hnd.1 (he ▸ List.mem_map_of_mem Prod.fst h)
      have hbeq : (p.1 == q.1) = false := beq_eq_false_iff_ne.mpr hne
      simp [List.lookup, hbeq]
      exact ih h hnd.2

/-! The claim theorems. -/

/-- Claim C1, counterexample: a person search whose top match has a
non-empty `known_for` holding only a TV entry (no movie-type entry) does
NOT yield the "not found" message; the handler sends the success caption
with an empty movie listing (only the show-menu button). -/
theorem call_search_actor_counterexample :
    call_search_actor "alice"
        [{ name := "Alice",
           known_for := [{ id := 1, title := "S", release_date := none,
                           media_type := "tv" }] }]
      = { requests := ["search/person"],
          replies := [⟨msgActorMovies "Alice", [[showMenuButton]]⟩] } ∧
    msgActorMovies "Alice" ≠ msgActorNotFound "alice" := by
  constructor
  · rfl
  · decide

/-- Claim C1 (amended): the actor handler emits "not found" exactly when
the person search returns no results or the top match's `known_for` is
empty/absent; when `known_for` is non-empty but contains no movie-type
entry, it emits the success caption with an empty movie listing (only the
show-menu button) instead of the "not found" message. -/
theorem call_search_actor_amended (q : String) (a : Person) (rest : List Person)
    (hkf : a.known_for ≠ [])
    (hmv : a.known_for.filter (fun m => m.media_type == "movie") = []) :
    call_search_actor q (a :: rest)
      = { requests := ["search/person"],
          replies := [⟨msgActorMovies a.name, [[showMenuButton]]⟩] } ∧
    call_search_actor q []
      = { requests := ["search/person"],
          replies := [⟨msgActorNotFound q, create_error_keyboard⟩] } ∧
    (∀ b : Person, ∀ rest₂ : List Person, b.known_for = [] →
      call_search_actor q (b :: rest₂)
        = { requests := ["search/person"],
            replies := [⟨msgActorNotFound q, create_error_keyboard⟩] }) := by
  refine ⟨?_, rfl, ?_⟩
  · unfold call_search_actor
    dsimp only
    rw [if_neg hkf, hmv]
    rfl
  · intro b rest₂ hb
    unfold call_search_actor
    dsimp only
    rw [if_pos hb]

/-- Claim C1 amended theorem, witness at a concrete top match whose
`known_for` holds one TV entry. -/
theorem call_search_actor_amended_witness :
    (([{ id := 1, title := "S", release_date := none,
         media_type := "tv" }] : List KnownForEntry) ≠ [] ∧
     ([{ id := 1, title := "S", release_date := none,
         media_type := "tv" }] : List KnownForEntry).filter
        (fun m => m.media_type == "movie") = []) ∧
    call_search_actor "alice"
        [{ name := "Alice",
           known_for := [{ id := 1, title := "S", release_date := none,
                           media_type := "tv" }] }]
      = { requests := ["search/person"],
          replies := [⟨msgActorMovies "Alice", [[showMenuButton]]⟩] } :=
  ⟨⟨by decide, by decide⟩,
   (call_search_actor_amended "alice"
      { name := "Alice",
        known_for := [{ id := 1, title := "S", release_date := none,
                        media_type := "tv" }] }
      [] (by decide) (by decide)).1⟩

/-- Claim C2: adding a favorite is idempotent.  On a table without the
`(user, movie)` pair, the first insert reports `inserted = true`; repeating
it reports `inserted = false` with the "already present" message and no
error, and the table then holds exactly one row for that pair. -/
theorem add_favorite_idempotent (db : FavDB) (u m : Int) (t : String)
    (h : db.any (fun r => r.matches u m) = false) :
    (add_favorite_to_db (.ok db) u m t).2.1 = true ∧
    (add_favorite_to_db ((add_favorite_to_db (.ok db) u m t).1) u m t).2.1 = false ∧
    (add_favorite_to_db ((add_favorite_to_db (.ok db) u m t).1) u m t).2.2 = msgFavExists t ∧
    (∃ db₂, (add_favorite_to_db ((add_favorite_to_db (.ok db) u m t).1) u m t).1 = .ok db₂ ∧
       (db₂.filter (fun r => r.matches u m)).length = 1) := by
  have hrow : FavRow.matches ⟨u, m, t⟩ u m = true := by simp [FavRow.matches]
  have h1 : add_favorite_to_db (.ok db) u m t
      = (.ok (db ++ [⟨u, m, t⟩]), true, msgFavAdded t) := by
    unfold add_favorite_to_db
    dsimp only
    rw [h]
    simp
  have hany : (db ++ [(⟨u, m, t⟩ : FavRow)]).any (fun r => r.matches u m) = true := by
    rw [List.any_append]
    simp [hrow]
  have h2 : add_favorite_to_db ((add_favorite_to_db (.ok db) u m t).1) u m t
      = (.ok (db ++ [⟨u, m, t⟩]), false, msgFavExists t) := by
    rw [h1]
    unfold add_favorite_to_db
    dsimp only
    rw [hany]
    simp
  have hdbnil : db.filter (fun r => r.matches u m) = [] := by
    rw [List.filter_eq_nil_iff]
    intro a ha
    have := (List.any_eq_false.mp h) a ha
    simpa using this
  refine ⟨by rw [h1], by rw [h2], by rw [h2], ⟨db ++ [⟨u, m, t⟩], by rw [h2], ?_⟩⟩
  rw [List.filter_append, hdbnil]
  simp [hrow]

/-- Claim C2, witness on the empty table with user 1, movie 2, title "A". -/
theorem add_favorite_idempotent_witness :
    ([] : FavDB).any (fun r => r.matches 1 2) = false ∧
    ((add_favorite_to_db (.ok []) 1 2 "A").2.1 = true ∧
     (add_favorite_to_db ((add_favorite_to_db (.ok []) 1 2 "A").1) 1 2 "A").2.1 = false ∧
     (add_favorite_to_db ((add_favorite_to_db (.ok []) 1 2 "A").1) 1 2 "A").2.2
        = msgFavExists "A" ∧
     (∃ db₂,
        (add_favorite_to_db ((add_favorite_to_db (.ok []) 1 2 "A").1) 1 2 "A").1 = .ok db₂ ∧
        (db₂.filter (fun r => r.matches 1 2)).length = 1)) :=
  ⟨rfl, add_favorite_idempotent [] 1 2 "A" rfl⟩

/-- Claim C3: for a movie list longer than 5, the rendered keyboard has
exactly 6 rows: the first 5 movies in order, then the single appended
show-main-menu row. -/
theorem create_movie_keyboard_truncates (movies : List Movie) (c : String)
    (h : 5 < movies.length) :
    (create_movie_keyboard movies c).length = 6 ∧
    (create_movie_keyboard movies c).take 5
      = (movies.take 5).map (fun m => [movieButton c m]) ∧
    (create_movie_keyboard movies c).getLast? = some [showMenuButton] := by
  unfold create_movie_keyboard
  refine ⟨?_, ?_, ?_⟩
  · simp [List.length_append, List.length_map, List.length_take]
    omega
  · rw [List.take_left' ?_]
    simp [List.length_map, List.length_take]
    omega
  · exact List.getLast?_concat _

/-- Claim C3, witness on a concrete list of six movies. -/
theorem create_movie_keyboard_truncates_witness :
    5 < ([⟨1, "A", none⟩, ⟨2, "B", none⟩, ⟨3, "C", none⟩, ⟨4, "D", none⟩,
          ⟨5, "E", none⟩, ⟨6, "F", none⟩] : List Movie).length ∧
    ((create_movie_keyboard [⟨1, "A", none⟩, ⟨2, "B", none⟩, ⟨3, "C", none⟩,
        ⟨4, "D", none⟩, ⟨5, "E", none⟩, ⟨6, "F", none⟩] "detail").length = 6 ∧
     (create_movie_keyboard [⟨1, "A", none⟩, ⟨2, "B", none⟩, ⟨3, "C", none⟩,
        ⟨4, "D", none⟩, ⟨5, "E", none⟩, ⟨6, "F", none⟩] "detail").take 5
        = (([⟨1, "A", none⟩, ⟨2, "B", none⟩, ⟨3, "C", none⟩, ⟨4, "D", none⟩,
             ⟨5, "E", none⟩, ⟨6, "F", none⟩] : List Movie).take 5).map
            (fun m => [movieButton "detail" m]) ∧
     (create_movie_keyboard [⟨1, "A", none⟩, ⟨2, "B", none⟩, ⟨3, "C", none⟩,
        ⟨4, "D", none⟩, ⟨5, "E", none⟩, ⟨6, "F", none⟩] "detail").getLast?
        = some [showMenuButton]) :=
  ⟨by decide,
   create_movie_keyboard_truncates
     [⟨1, "A", none⟩, ⟨2, "B", none⟩, ⟨3, "C", none⟩, ⟨4, "D", none⟩,
      ⟨5, "E", none⟩, ⟨6, "F", none⟩] "detail" (by decide)⟩

/-- Claim C4, counterexample: the mapping `[("zero", 0), ("action", 28)]`
contains both names, yet pressing `genre_zero` yields the invalid-genre
message with no discover lookup (Python `not 0` is truthy), and pressing
`genre_action` when discover returns nothing performs the lookup but emits
the generic no-results message instead of presenting results. -/
theorem handle_genre_button_counterexample :
    handle_genre_button [("zero", 0), ("action", 28)] "genre_zero" (fun _ => [])
      = { requests := [],
          replies := [⟨msgInvalidGenre "zero", create_error_keyboard⟩] } ∧
    handle_genre_button [("zero", 0), ("action", 28)] "genre_action" (fun _ => [])
      = { requests := ["discover/movie"],
          replies := [⟨msgNoGenreMovies "action", create_error_keyboard⟩] } ∧
    msgNoGenreMovies "action" ≠ msgInvalidGenre "action" := by
  refine ⟨rfl, rfl, by decide⟩

/-- Claim C4 (amended): a genre press whose name is absent from the mapping
yields the invalid-genre message — distinct from the no-results message —
and performs no discover lookup; a name present with a nonzero id triggers
exactly one discover-by-genre lookup, presenting its results when non-empty
and emitting the generic no-results message when empty.  (A name stored
with id 0 is treated as invalid, since Python `not genre_id` conflates 0
with a missing key.) -/
theorem handle_genre_button_amended (genres : List (String × Int)) (name : String)
    (discover : Int → List Movie) :
    (genres.lookup name = none →
      handle_genre_button genres ("genre_" ++ name) discover
        = { requests := [],
            replies := [⟨msgInvalidGenre name, create_error_keyboard⟩] } ∧
      msgInvalidGenre name ≠ msgNoGenreMovies name) ∧
    (∀ gid, genres.lookup name = some gid → gid ≠ 0 →
      (discover gid = [] →
        handle_genre_button genres ("genre_" ++ name) discover
          = { requests := ["discover/movie"],
              replies := [⟨msgNoGenreMovies name, create_error_keyboard⟩] }) ∧
      (discover gid ≠ [] →
        handle_genre_button genres ("genre_" ++ name) discover
          = { requests := ["discover/movie"],
              replies := [⟨msgGenreMovies name,
                           create_movie_keyboard (discover gid) "detail"⟩] })) := by
  have hname : afterFirstUnderscore ("genre_" ++ name) = name := rfl
  constructor
  · intro hl
    refine ⟨?_, invalid_ne_noresults name⟩
    unfold handle_genre_button
    rw [hname]
    dsimp only
    rw [hl]
  · intro gid hl hgid
    constructor
    · intro hdis
      unfold handle_genre_button
      rw [hname]
      dsimp only
      rw [hl]
      dsimp only
      rw [if_neg hgid, hdis]
      rfl
    · intro hdis
      unfold handle_genre_button
      rw [hname]
      dsimp only
      rw [hl]
      dsimp only
      rw [if_neg hgid, if_neg hdis]

/-- Claim C4 amended theorem, witness: an absent name on the mapping
`[("action", 28)]`, and a present name with non-empty discover results. -/
theorem handle_genre_button_amended_witness :
    ([("action", 28)] : List (String × Int)).lookup "comedy" = none ∧
    handle_genre_button [("action", 28)] ("genre_" ++ "comedy") (fun _ => [])
      = { requests := [],
          replies := [⟨msgInvalidGenre "comedy", create_error_keyboard⟩] } ∧
    ([("action", 28)] : List (String × Int)).lookup "action" = some 28 ∧
    handle_genre_button [("action", 28)] ("genre_" ++ "action")
        (fun _ => [⟨1, "A", none⟩])
      = { requests := ["discover/movie"],
          replies := [⟨msgGenreMovies "action",
                       create_movie_keyboard [⟨1, "A", none⟩] "detail"⟩] } :=
  ⟨by decide,
   ((handle_genre_button_amended [("action", 28)] "comedy" (fun _ => [])).1
      (by decide)).1,
   by decide,
   ((handle_genre_button_amended [("action", 28)] "action"
      (fun _ => [⟨1, "A", none⟩])).2 28 (by decide) (by decide)).2 (by decide)⟩

/-- Claim C5: every text-message turn leaves the pending-intent slot
cleared (`none`), whatever the prior state, the text and the catalog
responses; hence a second consecutive text message behaves exactly as if no
pending intent existed. -/
theorem pending_intent_cleared (st : Option String) (text t₂ : String)
    (oracle o₂ : TmdbOracle) :
    (handle_text_message st text oracle).newState = none ∧
    handle_text_message (handle_text_message st text oracle).newState t₂ o₂
      = handle_text_message none t₂ o₂ := by
  have h : (handle_text_message st text oracle).newState = none := by
    unfold handle_text_message
    split
    · rfl
    · split
      · rfl
      · split <;> rfl
  exact ⟨h, by rw [h]⟩

/-- Claim C6: the catalog request primitive returns the empty object on a
missing (or empty) API key, on a transport error and on any HTTP status at
or above 400; the transport-error result is identical to a successful
response carrying an empty object, so callers cannot tell them apart. -/
theorem tmdb_request_fails_closed (k : String) (o : HttpOutcome)
    (status : Nat) (body : Json) (h400 : 400 ≤ status) :
    tmdb_request none o = emptyJson ∧
    tmdb_request (some "") o = emptyJson ∧
    tmdb_request (some k) .transportError = emptyJson ∧
    tmdb_request (some k) (.response status body) = emptyJson ∧
    tmdb_request (some k) .transportError
      = tmdb_request (some k) (.response 200 emptyJson) := by
  refine ⟨rfl, by unfold tmdb_request; simp, ?_, ?_, ?_⟩ <;>
    unfold tmdb_request <;> dsimp only <;> split <;> simp [h400]

/-- Claim C6, witness at status 404 with a null body. -/
theorem tmdb_request_fails_closed_witness :
    400 ≤ 404 ∧
    (tmdb_request none .transportError = emptyJson ∧
     tmdb_request (some "") .transportError = emptyJson ∧
     tmdb_request (some "key") .transportError = emptyJson ∧
     tmdb_request (some "key") (.response 404 .null) = emptyJson ∧
     tmdb_request (some "key") .transportError
       = tmdb_request (some "key") (.response 200 emptyJson)) :=
  ⟨by decide, tmdb_request_fails_closed "key" .transportError 404 .null (by decide)⟩

/-- Claim C7: listing favorites over a live connection returns exactly the
invoking user's stored titles (a permutation of the selected column),
sorted lexicographically ascending; a connection failure returns the empty
list; and the stored pair Zeta/Alpha comes back as ["Alpha", "Zeta"]. -/
theorem get_favorites_sorted (db : FavDB) (u : Int) :
    (get_favorites_from_db (.ok db) u).Sorted (fun a b => a ≤ b) ∧
    (get_favorites_from_db (.ok db) u).Perm
      ((db.filter (fun r => r.user_id == u)).map (fun r => r.movie_title)) ∧
    get_favorites_from_db .fail u = [] ∧
    get_favorites_from_db (.ok [⟨7, 1, "Zeta"⟩, ⟨7, 2, "Alpha"⟩]) 7
      = ["Alpha", "Zeta"] := by
  refine ⟨List.sorted_insertionSort _ _, List.perm_insertionSort _ _, rfl, ?_⟩
  have hs := List.sorted_insertionSort (fun a b : String => a ≤ b)
    (([(⟨7, 1, "Zeta"⟩ : FavRow), ⟨7, 2, "Alpha"⟩].filter (fun r => r.user_id == 7)).map
      (fun r => r.movie_title))
  have hp := List.perm_insertionSort (fun a b : String => a ≤ b)
    (([(⟨7, 1, "Zeta"⟩ : FavRow), ⟨7, 2, "Alpha"⟩].filter (fun r => r.user_id == 7)).map
      (fun r => r.movie_title))
  have hfilter : (([(⟨7, 1, "Zeta"⟩ : FavRow), ⟨7, 2, "Alpha"⟩].filter
      (fun r => r.user_id == 7)).map (fun r => r.movie_title)) = ["Zeta", "Alpha"] := by
    decide
  rw [hfilter] at hs hp
  apply List.eq_of_perm_of_sorted (r := fun a b : String => a ≤ b)
  · exact hp.trans (List.Perm.swap _ _ _)
  · exact hs
  · simp [List.sorted_cons]
    decide

/-- Claim C8: a text message arriving with no pending intent gets exactly
one reply — the "didn't understand" text over the main-menu keyboard — and
the handler contacts no catalog endpoint. -/
theorem no_pending_intent_fallback (text : String) (oracle : TmdbOracle) :
    handle_text_message none text oracle
      = ⟨none, { requests := [],
                 replies := [⟨msgDidntUnderstand, main_menu_keyboard⟩] }⟩ ∧
    (handle_text_message none text oracle).output.requests = [] := by
  constructor <;> rfl

/-- Claim C9, counterexample: with the coordinates held as Python floats of
value 0 (the numeric type the messaging library delivers for locations),
the emitted URL is `...@0.0,0.0,15z` and the literal `0,0,15z` does NOT
occur in it, nor in the full reply text. -/
theorem maps_url_counterexample :
    containsSub (maps_url (.float 0 "") (.float 0 "")) "0,0,15z" = false ∧
    containsSub (location_reply_text (.float 0 "") (.float 0 "")) "0,0,15z" = false ∧
    maps_url (.float 0 "") (.float 0 "")
      = "https://www.google.com/maps/search/bioskop/@0.0,0.0,15z" := by
  refine ⟨by decide, by decide, rfl⟩

/-- Claim C9 (amended): for a location share at latitude 0 / longitude 0
the emitted map URL contains `0.0,0.0,15z` when the coordinates arrive as
Python floats, and contains `0,0,15z` only when they arrive as ints. -/
theorem maps_url_amended :
    containsSub (maps_url (.float 0 "") (.float 0 "")) "0.0,0.0,15z" = true ∧
    containsSub (location_reply_text (.float 0 "") (.float 0 "")) "0.0,0.0,15z" = true ∧
    containsSub (maps_url (.int 0) (.int 0)) "0,0,15z" = true ∧
    maps_url (.int 0) (.int 0)
      = "https://www.google.com/maps/search/bioskop/@0,0,15z" := by
  refine ⟨by decide, by decide, by decide, rfl⟩

/-- Claim C10: the genre menu renders only the first 10 names of the genre
mapping (in order), plus the single back-to-menu row; any entry past the
tenth is not among the offered names, yet its lookup in the mapping still
succeeds with its stored id. -/
theorem genre_menu_truncates (genres : List (String × Int))
    (hnd : (genres.map Prod.fst).Nodup) :
    (genre_menu_keyboard genres).length = min 10 genres.length + 1 ∧
    (genre_menu_keyboard genres).take (min 10 genres.length)
      = ((genres.map Prod.fst).take 10).map
          (fun g => [{ text := pyCapitalize g, callback_data := "genre_" ++ g }]) ∧
    (genre_menu_keyboard genres).getLast? = some [backToMenuButton] ∧
    ∀ p ∈ genres.drop 10,
      p.1 ∉ (genres.map Prod.fst).take 10 ∧ genres.lookup p.1 = some p.2 := by
  refine ⟨?_, ?_, ?_, ?_⟩
  · simp [genre_menu_keyboard, List.length_append, List.length_map, List.length_take]
  · unfold genre_menu_keyboard
    rw [List.take_left' ?_]
    simp [List.length_map, List.length_take]
  · exact List.getLast?_concat _
  · intro p hp
    have hmem : p ∈ genres := List.mem_of_mem_drop hp
    have hkey : p.1 ∈ (genres.map Prod.fst).drop 10 := by
      rw [← List.map_drop]
      exact List.mem_map_of_mem Prod.fst hp
    constructor
    · intro htake
      have hdisj : List.Disjoint ((genres.map Prod.fst).take 10)
          ((genres.map Prod.fst).drop 10) := by
        apply List.disjoint_of_nodup_append
        rw [List.take_append_drop]
        exact hnd
      exact hdisj htake hkey
    · exact lookup_of_mem_of_nodup genres p hmem hnd

/-- Claim C10, witness on an 11-genre mapping: the eleventh name is not
offered but still resolves through the mapping. -/
theorem genre_menu_truncates_witness :
    (([("g01", 1), ("g02", 2), ("g03", 3), ("g04", 4), ("g05", 5), ("g06", 6),
       ("g07", 7), ("g08", 8), ("g09", 9), ("g10", 10), ("g11", 11)] :
        List (String × Int)).map Prod.fst).Nodup ∧
    ∀ p ∈ ([("g01", 1), ("g02", 2), ("g03", 3), ("g04", 4), ("g05", 5), ("g06", 6),
            ("g07", 7), ("g08", 8), ("g09", 9), ("g10", 10), ("g11", 11)] :
            List (String × Int)).drop 10,
      p.1 ∉ (([("g01", 1), ("g02", 2), ("g03", 3), ("g04", 4), ("g05", 5), ("g06", 6),
               ("g07", 7), ("g08", 8), ("g09", 9), ("g10", 10), ("g11", 11)] :
               List (String × Int)).map Prod.fst).take 10 ∧
      ([("g01", 1), ("g02", 2), ("g03", 3), ("g04", 4), ("g05", 5), ("g06", 6),
        ("g07", 7), ("g08", 8), ("g09", 9), ("g10", 10), ("g11", 11)] :
        List (String × Int)).lookup p.1 = some p.2 :=
  ⟨by decide,
   (genre_menu_truncates
     [("g01", 1), ("g02", 2), ("g03", 3), ("g04", 4), ("g05", 5), ("g06", 6),
      ("g07", 7), ("g08", 8), ("g09", 9), ("g10", 10), ("g11", 11)]
     (by decide)).2.2.2⟩

end MovieBot
